import Mathlib

/-!
Verification development for the automated forward-testing execution engine
(`netlify/functions/trading-executor.ts` and the strategy-sandbox service).

Prices are modelled as rationals (`ℚ`): the numeric claims checked here carry
tolerances (1e-3) that are many orders of magnitude above binary64 rounding,
so exact rational arithmetic settles them with the same verdict as the
JavaScript floats.  Stateful I/O (database reads, OANDA HTTP calls, the
Pyodide runtime) is modelled by passing the outcome of each external call in
explicitly, so every function below is a total, executable definition.
-/

/-- Trade direction, the `'BUY' | 'SELL'` strings of the source. -/
inductive Dir
  | BUY
  | SELL
deriving DecidableEq

/-- One configured trading session, mirroring the `trading_sessions` row shape
read by `trading-executor.ts` (the fields the engine actually touches). -/
structure Session where
  id : Nat
  user_id : Nat
  strategy_name : String
  strategy_code : String
  symbol : String
  timeframe : String
  environment : String
  is_active : Bool
  last_execution : Nat
  risk_per_trade : ℚ
  stop_loss : ℚ
  take_profit : ℚ
  max_position_size : ℚ
  reverse_signals : Bool
  avoid_low_volume : Bool
deriving DecidableEq

/-- Normalized OHLCV arrays, the return shape of `fetchOANDAMarketData`
(`open` is a Lean keyword, hence the field name `open_`). -/
structure MarketData where
  open_ : List ℚ
  high : List ℚ
  low : List ℚ
  close : List ℚ
  volume : List Int
deriving DecidableEq

/-- Volume regime from `getVolumeLevel`. -/
inductive VolumeLevel
  | low
  | medium
  | high
deriving DecidableEq

/-- `getVolumeLevel(hourUTC)` from trading-executor.ts. -/
def getVolumeLevel (hourUTC : Nat) : VolumeLevel :=
  if 12 ≤ hourUTC ∧ hourUTC < 17 then VolumeLevel.high
  else if 7 ≤ hourUTC ∧ hourUTC < 9 then VolumeLevel.high
  else if (8 ≤ hourUTC ∧ hourUTC < 17) ∨ (0 ≤ hourUTC ∧ hourUTC < 9) then VolumeLevel.medium
  else VolumeLevel.low

/-- Market status record returned by `getMarketStatus` (the `nextOpen` /
`nextClose` timestamps are not modelled: no claim depends on them). -/
structure MarketStatus where
  isOpen : Bool
  activeSessions : List String
  volume : VolumeLevel
deriving DecidableEq

/-- `getMarketStatus()` from trading-executor.ts, as a pure function of the
UTC day-of-week (0 = Sunday .. 6 = Saturday) and UTC hour. -/
def getMarketStatus (dayOfWeek hourUTC : Nat) : MarketStatus :=
  let isWeekend : Bool := (dayOfWeek == 6) || ((dayOfWeek == 0) && decide (hourUTC < 22))
  let isFridayClose : Bool := (dayOfWeek == 5) && decide (22 ≤ hourUTC)
  let isOpen : Bool := !isWeekend && !isFridayClose
  { isOpen := isOpen
    activeSessions := if isOpen then ["Global"] else []
    volume := getVolumeLevel hourUTC }

/-- Printable name of a volume level (used by `formatMarketStatus`). -/
def volumeName : VolumeLevel → String
  | VolumeLevel.low => "low"
  | VolumeLevel.medium => "medium"
  | VolumeLevel.high => "high"

/-- `formatMarketStatus(status)` from trading-executor.ts. -/
def formatMarketStatus (st : MarketStatus) : String :=
  if st.isOpen = false then "Markets Closed"
  else "Markets Open (" ++ volumeName st.volume ++ " volume)"

/-- `shouldExecuteTrade(marketStatus, session)` from trading-executor.ts. -/
def shouldExecuteTrade (st : MarketStatus) (session : Session) : Bool :=
  if st.isOpen = false then false
  else if decide (st.volume = VolumeLevel.low) && session.avoid_low_volume then false
  else true

/-- `calculateEMA(data, period)` from trading-executor.ts:
`ema[0] = data[0]; ema[i] = data[i]*m + ema[i-1]*(1-m)` with
`m = 2/(period+1)`.  (On empty input the JavaScript produces a 1-element
array holding `undefined`; it is only ever called on non-empty candle
arrays, and the model returns `[]` there.) -/
def emaFrom (m : ℚ) (prev : ℚ) : List ℚ → List ℚ
  | [] => []
  | x :: xs =>
    let e := x * m + prev * (1 - m)
    e :: emaFrom m e xs

/-- The EMA helper itself: seeds at the first sample, then folds the
exponential-smoothing recurrence over the rest. -/
def calculateEMA (data : List ℚ) (period : Nat) : List ℚ :=
  let m : ℚ := 2 / ((period : ℚ) + 1)
  match data with
  | [] => []
  | d :: ds => d :: emaFrom m d ds

/-- Bullish crossover condition at bar `i` (EMA21 crosses above EMA55),
exactly the `bullish` local of `executeStrategyLogic`.  In-range JavaScript
array reads `ema[i]` are modelled with `getD _ 0` (the default is never hit
at the indices the loop reads). -/
abbrev bullishAt (ema21 ema55 : List ℚ) (i : Nat) : Prop :=
  ema21.getD i 0 > ema55.getD i 0 ∧ ema21.getD (i - 1) 0 ≤ ema55.getD (i - 1) 0

/-- Bearish crossover condition at bar `i`, the `bearish` local. -/
abbrev bearishAt (ema21 ema55 : List ℚ) (i : Nat) : Prop :=
  ema21.getD i 0 < ema55.getD i 0 ∧ ema21.getD (i - 1) 0 ≥ ema55.getD (i - 1) 0

/-- One iteration of the signal loop of `executeStrategyLogic`: the pair of
values pushed onto `entry` and `direction` at index `i`. -/
def signalAt (ema21 ema55 : List ℚ) (reverseSignals : Bool) (i : Nat) : Bool × Option Dir :=
  if i < 55 then (false, none)
  else if reverseSignals then
    if bearishAt ema21 ema55 i then (true, some Dir.BUY)
    else if bullishAt ema21 ema55 i then (true, some Dir.SELL)
    else (false, none)
  else
    if bullishAt ema21 ema55 i then (true, some Dir.BUY)
    else if bearishAt ema21 ema55 i then (true, some Dir.SELL)
    else (false, none)

/-- The `{entry, exit, direction}` arrays returned by strategy evaluation. -/
structure SignalSeries where
  entry : List Bool
  exit : List Bool
  direction : List (Option Dir)
deriving DecidableEq

/-- `executeStrategyLogic(strategyCode, marketData, reverseSignals)` from
trading-executor.ts: a fixed EMA(21)/EMA(55) crossover over `close`; the
`strategyCode` argument is accepted but never read (the source comments call
it "a simplified server-side strategy execution").  Each loop iteration
pushes one element per array, so the arrays are the per-index images of
`List.range close.length`; `exit.push(false)` happens in every branch. -/
def executeStrategyLogic (strategyCode : String) (md : MarketData) (reverseSignals : Bool) :
    SignalSeries :=
  let close := md.close
  let ema21 := calculateEMA close 21
  let ema55 := calculateEMA close 55
  { entry := (List.range close.length).map (fun i => (signalAt ema21 ema55 reverseSignals i).1)
    exit := (List.range close.length).map (fun _ => false)
    direction := (List.range close.length).map (fun i => (signalAt ema21 ema55 reverseSignals i).2) }

deriving instance DecidableEq for Except

/-- One HTTP response from the OANDA orders endpoint: `ok` carries the JSON
body of a 2xx answer, `err` the status code and error text of a non-ok one. -/
inductive BrokerResponse
  | ok (body : String)
  | err (status : Nat) (body : String)
deriving DecidableEq

/-- The `orderData.order` object built inside `executeOANDATrade` (the
`type` field of the source is named `orderType` here). -/
structure OrderRequest where
  orderType : String
  instrument : String
  units : Int
  slDistance : ℚ
  tpDistance : ℚ
deriving DecidableEq

/-- The order body: market order, `units = ±1000` by direction, and the
pip distances divided by 10000 (`// Convert pips to price distance`). -/
def buildOrderData (session : Session) (dir : Dir) : OrderRequest :=
  let units : Int := if dir = Dir.BUY then 1000 else -1000
  { orderType := "MARKET"
    instrument := session.symbol
    units := units
    slDistance := session.stop_loss / 10000
    tpDistance := session.take_profit / 10000 }

/-- Result of one call to `executeOANDATrade`: the order it submitted, the
outcome (`ok` body, or the thrown `Trade execution failed` error), and how
many HTTP attempts the call made. -/
structure OandaCall where
  order : OrderRequest
  result : Except String String
  attempts : Nat
deriving DecidableEq

/-- `executeOANDATrade(session, direction)` from trading-executor.ts.  The
broker's behaviour is passed in as the stream of responses it would give to
successive requests; the source performs a single `fetch` with no loop, so
exactly the first response is consumed: a non-ok response makes it throw
`Trade execution failed: <body>` immediately. -/
def executeOANDATrade (session : Session) (dir : Dir) (responses : List BrokerResponse) :
    OandaCall :=
  let orderData := buildOrderData session dir
  match responses with
  | [] => { order := orderData, result := Except.error "no broker response", attempts := 1 }
  | BrokerResponse.ok body :: _ =>
      { order := orderData, result := Except.ok body, attempts := 1 }
  | BrokerResponse.err _ body :: _ =>
      { order := orderData
        result := Except.error ("Trade execution failed: " ++ body)
        attempts := 1 }

/-- Severity of a `trading_logs` row (`log_type`). -/
inductive LogType
  | info
  | trade
  | error
deriving DecidableEq

/-- One `trading_logs` insert performed by `logTradingActivity`. -/
structure LogEntry where
  session_id : Nat
  user_id : Nat
  log_type : LogType
  message : String
deriving DecidableEq

/-- Terminal outcome of one session's pipeline (`action` of the returned
object). -/
inductive SessionOutcome
  | skipped
  | tradeExecuted (dir : Dir) (ack : String)
  | noSignal
deriving DecidableEq

/-- Printable direction string. -/
def dirString : Dir → String
  | Dir.BUY => "BUY"
  | Dir.SELL => "SELL"

/-- `signals.direction?.[signals.direction.length - 1]`: the last element of
the direction array, `none` when the array is empty. -/
def latestDirection (sig : SignalSeries) : Option Dir :=
  match sig.direction.getLast? with
  | some d => d
  | none => none

/-- The external world one tick runs against: per-session outcome of the
OANDA candle fetch, and per-session broker responses to order submission. -/
structure TickEnv where
  fetchResult : Session → Except String MarketData
  brokerResponses : Session → List BrokerResponse

/-- `processTradinSession(session, marketStatus)` from trading-executor.ts.
Returns the settled outcome (`Except.error` models the rethrown exception
after the `catch` block logs it) together with the `trading_logs` inserts
the call performs, in order.  Every path logs at least one entry. -/
def processTradinSession (session : Session) (st : MarketStatus) (env : TickEnv) :
    Except String SessionOutcome × List LogEntry :=
  if shouldExecuteTrade st session = false then
    (Except.ok SessionOutcome.skipped,
     [{ session_id := session.id, user_id := session.user_id, log_type := LogType.info,
        message := "Skipped execution due to market conditions: " ++ formatMarketStatus st }])
  else
    match env.fetchResult session with
    | Except.error e =>
        (Except.error e,
         [{ session_id := session.id, user_id := session.user_id, log_type := LogType.error,
            message := "Session processing error: " ++ e }])
    | Except.ok md =>
        let signals := executeStrategyLogic session.strategy_code md session.reverse_signals
        match signals.entry.getLast?, latestDirection signals with
        | some true, some dir =>
            let call := executeOANDATrade session dir (env.brokerResponses session)
            match call.result with
            | Except.error e =>
                (Except.error e,
                 [{ session_id := session.id, user_id := session.user_id,
                    log_type := LogType.error,
                    message := "Session processing error: " ++ e }])
            | Except.ok _ack =>
                (Except.ok (SessionOutcome.tradeExecuted dir _ack),
                 [{ session_id := session.id, user_id := session.user_id,
                    log_type := LogType.trade,
                    message := "Trade executed: " ++ dirString dir ++ " for " ++ session.symbol }])
        | _, _ =>
            (Except.ok SessionOutcome.noSignal,
             [{ session_id := session.id, user_id := session.user_id, log_type := LogType.info,
                message := "No trading signals detected for " ++ session.symbol }])

/-- `true` on a fulfilled settled result (`result.status === 'fulfilled'`). -/
def settledOk : Except String SessionOutcome → Bool
  | Except.ok _ => true
  | Except.error _ => false

/-- What one invocation of the scheduled `handler` produces: HTTP status and
message of the returned body, the settled per-session outcomes, every
`trading_logs` insert of the tick, the session rows as written back by
`updateSessionExecutionTimes`, and the success/error counters it logs. -/
structure TickResult where
  statusCode : Nat
  message : String
  settled : List (Except String SessionOutcome)
  logs : List LogEntry
  updatedSessions : List Session
  successCount : Nat
  errorCount : Nat
deriving DecidableEq

/-- The scheduled `handler` of trading-executor.ts, one tick: check the
market clock; if closed return 200 immediately (no session work, no log
inserts); if no active sessions return 200; otherwise settle every
session's pipeline (`Promise.allSettled` over `processTradinSession`),
count outcomes, write `last_execution := now` to every session, and return
200. -/
def handlerTick (dayOfWeek hourUTC now : Nat) (sessions : List Session) (env : TickEnv) :
    TickResult :=
  let st := getMarketStatus dayOfWeek hourUTC
  if st.isOpen = false then
    { statusCode := 200, message := "Markets closed - execution skipped",
      settled := [], logs := [], updatedSessions := [], successCount := 0, errorCount := 0 }
  else if sessions.length = 0 then
    { statusCode := 200, message := "No active sessions",
      settled := [], logs := [], updatedSessions := [], successCount := 0, errorCount := 0 }
  else
    let settled := sessions.map (fun s => (processTradinSession s st env).1)
    { statusCode := 200
      message := "Trading execution completed"
      settled := settled
      logs := (sessions.map (fun s => (processTradinSession s st env).2)).flatten
      updatedSessions := sessions.map (fun s => { s with last_execution := now })
      successCount := settled.countP settledOk
      errorCount := settled.countP (fun r => !settledOk r) }

/-- `ForwardTestingService.stopSession`: the explicit user action that
deactivates a session (`update({ is_active: false })`). -/
def stopSession (s : Session) : Session :=
  { s with is_active := false }

/-- The result object `PythonExecutor.executeStrategy` resolves with.  The
fields are optional because a dict produced by the user strategy is passed
through as-is and may lack any of them. -/
structure StrategyResult where
  entry : Option (List Bool)
  exit : Option (List Bool)
  direction : Option (List (Option Dir))
  error : Option String
deriving DecidableEq

/-- What the user's `execute_strategy` call did, as observed by the Python
wrapper code the executor runs: it raised, returned `None`, returned a
non-dict value (with that value's type name), or returned a dict. -/
inductive StratReturn
  | raised (msg : String)
  | retNone
  | retNonDict (tyName : String)
  | retDict (d : StrategyResult)
deriving DecidableEq

/-- `true` on the outcomes the claim calls failures: the strategy raised,
returned `None`, or returned a non-dict value. -/
def StratReturn.isFailureKind : StratReturn → Bool
  | StratReturn.raised _ => true
  | StratReturn.retNone => true
  | StratReturn.retNonDict _ => true
  | StratReturn.retDict _ => false

/-- The runtime events of one `executeStrategy` call, in source order:
Pyodide initialization, the `close.some(isNaN)` check (never true for the
rational-valued model, carried as an input flag), `globals.set`, the
`execute_strategy in globals()` check, the `runPython` call itself (whose
`ok` payload is what the user strategy did), the `undefined/null` result
check, and the proxy-to-JavaScript conversion. -/
structure SandboxEnv where
  initResult : Except String Unit
  closeHasNaN : Bool
  setResult : Except String Unit
  fnAvailable : Bool
  runOutcome : Except String StratReturn
  resultNull : Bool
  conversionOk : Bool

/-- The all-false / all-null fallback arrays of length `L` plus an error
message, the shape every internal error path of the executor returns. -/
def defaultArrays (L : Nat) (msg : String) : StrategyResult :=
  { entry := some (List.replicate L false)
    exit := some (List.replicate L false)
    direction := some (List.replicate L none)
    error := some msg }

/-- `PythonExecutor.executeStrategy(code, marketData)`: each guard of the
source in order.  Inside the `runPython` wrapper, `None` and non-dict
returns are replaced by default dicts with an error message and a raised
exception is replaced by a default dict carrying `str(e)`; a dict return
value (`raw_result`) is used as the result unchanged.  The converted dict
is returned to the caller as-is — there is no key or length validation. -/
def executeStrategy (code : String) (md : MarketData) (env : SandboxEnv) : StrategyResult :=
  let L := md.close.length
  if L = 0 then
    { entry := some [], exit := some [], direction := some [],
      error := some "Invalid market data: no close prices available" }
  else
    match env.initResult with
    | Except.error e => defaultArrays L ("Pyodide initialization failed: " ++ e)
    | Except.ok _ =>
      if env.closeHasNaN then
        defaultArrays L "Invalid market data: NaN values detected in close prices"
      else
        match env.setResult with
        | Except.error e => defaultArrays L ("Failed to set data in Python: " ++ e)
        | Except.ok _ =>
          if env.fnAvailable = false then
            defaultArrays L
              "Python environment not properly initialized: execute_strategy function not found"
          else
            match env.runOutcome with
            | Except.error e => defaultArrays L ("Python execution failed: " ++ e)
            | Except.ok ret =>
              if env.resultNull then
                defaultArrays L "Python execution returned undefined result - check strategy code syntax"
              else
                let pyDict : StrategyResult :=
                  match ret with
                  | StratReturn.raised msg => defaultArrays L msg
                  | StratReturn.retNone => defaultArrays L "Strategy returned None"
                  | StratReturn.retNonDict ty =>
                      defaultArrays L ("Strategy returned " ++ ty ++ ", expected dict")
                  | StratReturn.retDict d => d
                if env.conversionOk = false then
                  defaultArrays L "Result conversion failed: Unknown conversion error"
                else pyDict

/-- Shape dichotomy of `executeStrategy`: every call either passes a dict
produced by the user strategy through unchanged, or returns the length-`L`
all-false / all-null fallback with some error message. -/
theorem executeStrategy_shape (code : String) (md : MarketData) (env : SandboxEnv) :
    (∃ d, env.runOutcome = Except.ok (StratReturn.retDict d) ∧
      executeStrategy code md env = d) ∨
    (∃ msg, executeStrategy code md env = defaultArrays md.close.length msg) := by
  unfold executeStrategy
  by_cases hL : md.close.length = 0
  · refine Or.inr ⟨"Invalid market data: no close prices available", ?_⟩
    simp [hL, defaultArrays]
  · simp only [hL, if_false]
    cases hinit : env.initResult with
    | error e => exact Or.inr ⟨_, rfl⟩
    | ok u =>
      by_cases hnan : env.closeHasNaN
      · exact Or.inr ⟨"Invalid market data: NaN values detected in close prices",
          by simp [hnan]⟩
      · simp only [hnan, if_false]
        cases hset : env.setResult with
        | error e => exact Or.inr ⟨_, rfl⟩
        | ok u2 =>
          by_cases hfn : env.fnAvailable = false
          · exact Or.inr
              ⟨"Python environment not properly initialized: execute_strategy function not found",
               by simp [hfn]⟩
          · simp only [hfn, if_false]
            cases hrun : env.runOutcome with
            | error e => exact Or.inr ⟨_, rfl⟩
            | ok ret =>
              by_cases hnull : env.resultNull
              · exact Or.inr
                  ⟨"Python execution returned undefined result - check strategy code syntax",
                   by simp [hnull]⟩
              · simp only [hnull, if_false]
                by_cases hconv : env.conversionOk = false
                · exact Or.inr ⟨"Result conversion failed: Unknown conversion error",
                    by simp [hconv]⟩
                · simp only [hconv, if_false]
                  cases ret with
                  | raised msg => exact Or.inr ⟨msg, rfl⟩
                  | retNone => exact Or.inr ⟨_, rfl⟩
                  | retNonDict ty => exact Or.inr ⟨_, rfl⟩
                  | retDict d => exact Or.inl ⟨d, rfl, rfl⟩

/-- Every path of `processTradinSession` performs at least one
`trading_logs` insert. -/
theorem processTradinSession_logs_len (s : Session) (st : MarketStatus) (env : TickEnv) :
    1 ≤ (processTradinSession s st env).2.length := by
  unfold processTradinSession
  split
  · simp
  · split
    · simp
    · dsimp only
      split
      · split <;> simp
      · simp

/-- The EMA recurrence, stated on the helper `emaFrom`: each produced value
mixes the current sample with the previous output. -/
theorem emaFrom_getD (m : ℚ) :
    ∀ (ds : List ℚ) (d : ℚ) (i : Nat), i < ds.length →
      (emaFrom m d ds).getD i 0 =
        ds.getD i 0 * m + ((d :: emaFrom m d ds).getD i 0) * (1 - m) := by
  intro ds
  induction ds with
  | nil => intro d i h; simp at h
  | cons x xs ih =>
    intro d i h
    cases i with
    | zero => simp [emaFrom]
    | succ j =>
      have hj : j < xs.length := by simpa using h
      simpa [emaFrom] using ih (x * m + d * (1 - m)) j hj

/-- `calculateEMA` satisfies the exponential-smoothing recurrence with
multiplier `2/(period+1)` at every in-range index. -/
theorem calculateEMA_recurrence (data : List ℚ) (period : Nat) (i : Nat)
    (h : i + 1 < data.length) :
    (calculateEMA data period).getD (i + 1) 0 =
      data.getD (i + 1) 0 * (2 / ((period : ℚ) + 1)) +
        (calculateEMA data period).getD i 0 * (1 - 2 / ((period : ℚ) + 1)) := by
  cases data with
  | nil => simp at h
  | cons d ds =>
    have hlen : i < ds.length := by simpa using h
    simpa [calculateEMA] using emaFrom_getD (2 / ((period : ℚ) + 1)) ds d i hlen

/-- Swap `BUY` and `SELL`, leave `null` alone (the reverse-signals policy). -/
def swapDirection : Option Dir → Option Dir
  | some Dir.BUY => some Dir.SELL
  | some Dir.SELL => some Dir.BUY
  | none => none

/-- The entry flag pushed at index `i` does not depend on `reverseSignals`. -/
theorem signalAt_fst (ema21 ema55 : List ℚ) (i : Nat) :
    (signalAt ema21 ema55 true i).1 = (signalAt ema21 ema55 false i).1 := by
  unfold signalAt
  by_cases h55 : i < 55
  · simp [h55]
  · by_cases hbu : bullishAt ema21 ema55 i
    · by_cases hbe : bearishAt ema21 ema55 i
      · exact absurd hbu.1 (lt_asymm hbe.1)
      · simp [if_neg h55, if_pos hbu, if_neg hbe]
    · by_cases hbe : bearishAt ema21 ema55 i
      · simp [if_neg h55, if_neg hbu, if_pos hbe]
      · simp [if_neg h55, if_neg hbu, if_neg hbe]

/-- The direction pushed at index `i` with `reverseSignals = true` is the
swap of the one pushed with `reverseSignals = false`. -/
theorem signalAt_snd (ema21 ema55 : List ℚ) (i : Nat) :
    (signalAt ema21 ema55 true i).2 = swapDirection (signalAt ema21 ema55 false i).2 := by
  unfold signalAt
  by_cases h55 : i < 55
  · simp [h55, swapDirection]
  · by_cases hbu : bullishAt ema21 ema55 i
    · by_cases hbe : bearishAt ema21 ema55 i
      · exact absurd hbu.1 (lt_asymm hbe.1)
      · simp [if_neg h55, if_pos hbu, if_neg hbe, swapDirection]
    · by_cases hbe : bearishAt ema21 ema55 i
      · simp [if_neg h55, if_neg hbu, if_pos hbe, swapDirection]
      · simp [if_neg h55, if_neg hbu, if_neg hbe, swapDirection]

/-- Candle closes of the spec's EMA scenario. -/
def close9 : List ℚ := [110/100, 111/100, 112/100, 109/100, 108/100]

/-- A concrete practice session (fixture for witnesses and counterexamples). -/
def sessA : Session :=
  { id := 1, user_id := 10, strategy_name := "EMA Crossover Strategy",
    strategy_code := "strategy_logic(data)", symbol := "EUR_USD", timeframe := "M5",
    environment := "practice", is_active := true, last_execution := 0,
    risk_per_trade := 2, stop_loss := 40, take_profit := 80,
    max_position_size := 100000, reverse_signals := false, avoid_low_volume := false }

/-- A second concrete session with a different strategy and symbol. -/
def sessB : Session :=
  { id := 2, user_id := 11, strategy_name := "RSI Strategy",
    strategy_code := "rsi_logic(data)", symbol := "GBP_USD", timeframe := "M5",
    environment := "practice", is_active := true, last_execution := 0,
    risk_per_trade := 1, stop_loss := 50, take_profit := 100,
    max_position_size := 100000, reverse_signals := true, avoid_low_volume := false }

/-- Three candles of market data (fixture). -/
def md0 : MarketData :=
  { open_ := [1, 1, 1], high := [2, 2, 2], low := [1/2, 1/2, 1/2],
    close := [110/100, 111/100, 112/100], volume := [1000, 1000, 1000] }

/-- Two candles of market data (fixture). -/
def mdL2 : MarketData :=
  { open_ := [1, 1], high := [2, 2], low := [1/2, 1/2],
    close := [110/100, 111/100], volume := [1000, 1000] }

/-- A tick environment in which session 1's candle fetch fails with an HTTP
error and every other fetch succeeds; order submissions succeed. -/
def envAB : TickEnv :=
  { fetchResult := fun s =>
      if s.id = 1 then Except.error "OANDA API error: 503 Service Unavailable"
      else Except.ok md0
    brokerResponses := fun _ => [BrokerResponse.ok "orderFillTransaction"] }

/-- The broker answers 503 three times, then 200 (the spec's retry
scenario). -/
def retryResponses : List BrokerResponse :=
  [BrokerResponse.err 503 "Service Unavailable", BrokerResponse.err 503 "Service Unavailable",
   BrokerResponse.err 503 "Service Unavailable", BrokerResponse.ok "orderFillTransaction"]

/-- Claim C4, counterexample: with the broker returning 503 three times and
then 200, `executeOANDATrade` does not retry and succeed on the final
attempt — it makes exactly one attempt and fails the submission with the
first response's error. -/
theorem C4_counterexample :
    (executeOANDATrade sessA Dir.BUY retryResponses).result =
      Except.error "Trade execution failed: Service Unavailable" ∧
    (executeOANDATrade sessA Dir.BUY retryResponses).attempts = 1 ∧
    ¬ (executeOANDATrade sessA Dir.BUY retryResponses).attempts = 4 :=
  ⟨rfl, rfl, by decide⟩

/-- Claim C4 (amended): `executeOANDATrade` performs exactly one submission
attempt per call — no error class is retried, retryable or not — and the
call succeeds exactly when the first broker response is ok; a non-ok first
response (such as HTTP 503) immediately fails the submission with a
`Trade execution failed` error. -/
theorem C4_single_attempt_no_retry (session : Session) (dir : Dir)
    (responses : List BrokerResponse) :
    (executeOANDATrade session dir responses).attempts = 1 ∧
    (executeOANDATrade session dir responses).result =
      (match responses.head? with
       | some (BrokerResponse.ok body) => Except.ok body
       | some (BrokerResponse.err _ body) =>
           Except.error ("Trade execution failed: " ++ body)
       | none => Except.error "no broker response") := by
  cases responses with
  | nil => exact ⟨rfl, rfl⟩
  | cons r rest => cases r <;> exact ⟨rfl, rfl⟩

/-- Claim C6: the scheduled executor's strategy evaluation ignores the
session's strategy source code entirely — for any two code strings and the
same market data and reverse flag it returns identical signal arrays (the
output is the fixed built-in EMA(21)/EMA(55) crossover). -/
theorem C6_strategy_code_ignored (code1 code2 : String) (md : MarketData) (rev : Bool) :
    executeStrategyLogic code1 md rev = executeStrategyLogic code2 md rev := rfl

/-- Claim C8: evaluating with `reverseSignals = true` yields the same entry
and exit flags as with `reverseSignals = false`, and the direction at every
bar is the swap of the unreversed one (BUY ↔ SELL, null unchanged). -/
theorem C8_reverse_swaps_direction (code : String) (md : MarketData) :
    (executeStrategyLogic code md true).entry = (executeStrategyLogic code md false).entry ∧
    (executeStrategyLogic code md true).exit = (executeStrategyLogic code md false).exit ∧
    (executeStrategyLogic code md true).direction =
      ((executeStrategyLogic code md false).direction).map swapDirection := by
  refine ⟨?_, rfl, ?_⟩
  · simp only [executeStrategyLogic]
    exact List.map_congr_left (fun i _ => signalAt_fst _ _ i)
  · simp only [executeStrategyLogic]
    rw [List.map_map]
    exact List.map_congr_left (fun i _ => signalAt_snd _ _ i)

/-- Claim C10: the submitted order carries the session's pip distances
divided by 10000 in both the stop-loss and take-profit fields, and the
conversion round-trips exactly: multiplying back by 10000 recovers the
configured pip distance. -/
theorem C10_pip_conversion (session : Session) (dir : Dir)
    (responses : List BrokerResponse) :
    (executeOANDATrade session dir responses).order.slDistance = session.stop_loss / 10000 ∧
    (executeOANDATrade session dir responses).order.tpDistance = session.take_profit / 10000 ∧
    (executeOANDATrade session dir responses).order.slDistance * 10000 = session.stop_loss ∧
    (executeOANDATrade session dir responses).order.tpDistance * 10000 = session.take_profit := by
  have horder : (executeOANDATrade session dir responses).order = buildOrderData session dir := by
    cases responses with
    | nil => rfl
    | cons r rest => cases r <;> rfl
  rw [horder]
  refine ⟨rfl, rfl, ?_, ?_⟩ <;> exact div_mul_cancel₀ _ (by norm_num)

/-- The EMA helper evaluated on the spec's scenario series, exactly. -/
theorem calculateEMA_close9 :
    calculateEMA close9 2 = [11/10, 83/75, 251/225, 1483/1350, 4399/4050] := by
  norm_num [calculateEMA, close9, emaFrom]

/-- Claim C9, counterexample: running the EMA helper on the spec's series
`[1.10, 1.11, 1.12, 1.09, 1.08]` with period 2 does not come within 1e-3 of
the spec's expected values at indices 3 and 4 (the recurrence produces
≈1.09852 and ≈1.08617 there, not 1.1052 and 1.0968). -/
theorem C9_counterexample :
    ¬ (|(calculateEMA close9 2).getD 3 0 - 11052/10000| ≤ 1/1000) ∧
    ¬ (|(calculateEMA close9 2).getD 4 0 - 10968/10000| ≤ 1/1000) := by
  rw [calculateEMA_close9]
  constructor <;> norm_num [List.getD, abs_le]

/-- Claim C9 (amended): `calculateEMA` is seeded at the first sample and
satisfies `ema[i] = data[i]*m + ema[i-1]*(1-m)` with `m = 2/(period+1)` at
every in-range index; on `close = [1.10, 1.11, 1.12, 1.09, 1.08]` with
period 2 it yields `[1.10, 1.1067, 1.1156, 1.0985, 1.0862]` within 1e-3 at
every index (the spec's stated 1.1052 and 1.0968 at indices 3 and 4 are not
what the recurrence produces). -/
theorem C9_ema_contract :
    (∀ (d : ℚ) (ds : List ℚ) (period : Nat),
        (calculateEMA (d :: ds) period).getD 0 0 = d) ∧
    (∀ (data : List ℚ) (period i : Nat), i + 1 < data.length →
        (calculateEMA data period).getD (i + 1) 0 =
          data.getD (i + 1) 0 * (2 / ((period : ℚ) + 1)) +
            (calculateEMA data period).getD i 0 * (1 - 2 / ((period : ℚ) + 1))) ∧
    (|(calculateEMA close9 2).getD 0 0 - 110/100| ≤ 1/1000 ∧
     |(calculateEMA close9 2).getD 1 0 - 11067/10000| ≤ 1/1000 ∧
     |(calculateEMA close9 2).getD 2 0 - 11156/10000| ≤ 1/1000 ∧
     |(calculateEMA close9 2).getD 3 0 - 10985/10000| ≤ 1/1000 ∧
     |(calculateEMA close9 2).getD 4 0 - 10862/10000| ≤ 1/1000) := by
  refine ⟨fun d ds period => rfl, calculateEMA_recurrence, ?_⟩
  rw [calculateEMA_close9]
  refine ⟨?_, ?_, ?_, ?_, ?_⟩ <;> norm_num [List.getD, abs_le]

/-- Witness for the universally quantified part of the amended C9 theorem:
the recurrence instantiated at a concrete list and index. -/
theorem C9_ema_contract_witness :
    (calculateEMA [(1 : ℚ), 2] 3).getD 1 0 =
      (List.getD [(1 : ℚ), 2] 1 0) * (2 / ((3 : ℚ) + 1)) +
        (calculateEMA [(1 : ℚ), 2] 3).getD 0 0 * (1 - 2 / ((3 : ℚ) + 1)) :=
  C9_ema_contract.2.1 [(1 : ℚ), 2] 3 0 (by norm_num)

/-- A sandbox run in which everything works and the user strategy returns
`None`. -/
def envRetNone : SandboxEnv :=
  { initResult := Except.ok (), closeHasNaN := false, setResult := Except.ok (),
    fnAvailable := true, runOutcome := Except.ok StratReturn.retNone,
    resultNull := false, conversionOk := true }

/-- A sandbox run in which the user strategy returns an empty dict `{}` —
a dict, so it passes the wrapper's `isinstance(raw_result, dict)` check,
but not a well-formed result object (it has no keys at all). -/
def envEmptyDict : SandboxEnv :=
  { initResult := Except.ok (), closeHasNaN := false, setResult := Except.ok (),
    fnAvailable := true,
    runOutcome := Except.ok (StratReturn.retDict
      { entry := none, exit := none, direction := none, error := none }),
    resultNull := false, conversionOk := true }

/-- A sandbox run in which the user strategy returns a dict whose arrays are
shorter than the candle series. -/
def envShortDict : SandboxEnv :=
  { initResult := Except.ok (), closeHasNaN := false, setResult := Except.ok (),
    fnAvailable := true,
    runOutcome := Except.ok (StratReturn.retDict
      { entry := some [true], exit := some [], direction := some [], error := none }),
    resultNull := false, conversionOk := true }

/-- Claim C2, counterexample: a strategy that returns the dict `{}` — not a
well-formed result object — is passed through unchanged: the executor
returns it with no error marker and without the promised length-L all-false
entry array. -/
theorem C2_counterexample :
    (executeStrategy "return dict()" md0 envEmptyDict).error = none ∧
    ¬ ((executeStrategy "return dict()" md0 envEmptyDict).entry =
        some (List.replicate md0.close.length false)) :=
  ⟨rfl, by decide⟩

/-- Claim C2 (amended): `executeStrategy` is a total function of its inputs
and the runtime events (it never propagates an exception); whenever the
user strategy raises, returns `None`, or returns a non-dict value, the
result has `entry` and `exit` equal to L copies of `false`, `direction`
equal to L copies of `null`, and an error marker present (the marker text
is the failure's own message and the code does not force it non-empty).  A
dict return value, well-formed or not, is passed through without key or
length validation. -/
theorem C2_failure_returns_safe_defaults (code : String) (md : MarketData)
    (env : SandboxEnv) (ret : StratReturn) (hrun : env.runOutcome = Except.ok ret)
    (hfail : ret.isFailureKind = true) :
    (executeStrategy code md env).entry = some (List.replicate md.close.length false) ∧
    (executeStrategy code md env).exit = some (List.replicate md.close.length false) ∧
    (executeStrategy code md env).direction = some (List.replicate md.close.length none) ∧
    ((executeStrategy code md env).error).isSome = true := by
  rcases executeStrategy_shape code md env with ⟨d, hd, hres⟩ | ⟨msg, hres⟩
  · rw [hrun] at hd
    injection hd with h
    subst h
    simp [StratReturn.isFailureKind] at hfail
  · rw [hres]
    simp [defaultArrays]

/-- Witness for the amended C2 theorem: the strategy returns `None` on a
3-candle series and the executor answers with the 3-long safe defaults. -/
theorem C2_witness :
    (executeStrategy "x" md0 envRetNone).entry = some (List.replicate md0.close.length false) ∧
    (executeStrategy "x" md0 envRetNone).exit = some (List.replicate md0.close.length false) ∧
    (executeStrategy "x" md0 envRetNone).direction =
      some (List.replicate md0.close.length none) ∧
    ((executeStrategy "x" md0 envRetNone).error).isSome = true :=
  C2_failure_returns_safe_defaults "x" md0 envRetNone StratReturn.retNone rfl rfl

/-- Claim C5, counterexample: a strategy dict whose arrays are shorter than
the input (length 1 against L = 2) is returned as a success — no error
marker — so a result with arrays of a different length than the input is
returned as success. -/
theorem C5_counterexample :
    (executeStrategy "s" mdL2 envShortDict).error = none ∧
    (executeStrategy "s" mdL2 envShortDict).entry = some [true] ∧
    mdL2.close.length = 2 :=
  ⟨rfl, rfl, rfl⟩

/-- Claim C5 (amended): every result the executor generates itself has
arrays of length exactly L plus an error marker; but a dict produced by the
user strategy is passed through with no length validation, so the only
results that can violate the length contract are the strategy's own dicts,
returned unvalidated. -/
theorem C5_length_dichotomy (code : String) (md : MarketData) (env : SandboxEnv) :
    (∃ d, env.runOutcome = Except.ok (StratReturn.retDict d) ∧
        executeStrategy code md env = d) ∨
    ((executeStrategy code md env).entry = some (List.replicate md.close.length false) ∧
     (executeStrategy code md env).exit = some (List.replicate md.close.length false) ∧
     (executeStrategy code md env).direction = some (List.replicate md.close.length none) ∧
     ((executeStrategy code md env).error).isSome = true) := by
  rcases executeStrategy_shape code md env with h | ⟨msg, hres⟩
  · exact Or.inl h
  · refine Or.inr ?_
    rw [hres]
    simp [defaultArrays]

/-- Claim C1: with the market open, the tick returns HTTP 200, the settled
outcome of every session is exactly its own pipeline's outcome (one session
failing at any stage cannot change any other session's entry in the settled
list), the tick's log inserts are the concatenation of every session's own
log entries, and every session's pipeline logs at least one entry. -/
theorem C1_per_session_isolation (dayOfWeek hourUTC now : Nat) (sessions : List Session)
    (env : TickEnv) (hopen : (getMarketStatus dayOfWeek hourUTC).isOpen = true) :
    (handlerTick dayOfWeek hourUTC now sessions env).statusCode = 200 ∧
    (handlerTick dayOfWeek hourUTC now sessions env).settled =
      sessions.map
        (fun s => (processTradinSession s (getMarketStatus dayOfWeek hourUTC) env).1) ∧
    (handlerTick dayOfWeek hourUTC now sessions env).logs =
      (sessions.map
        (fun s => (processTradinSession s (getMarketStatus dayOfWeek hourUTC) env).2)).flatten ∧
    ∀ s ∈ sessions,
      1 ≤ (processTradinSession s (getMarketStatus dayOfWeek hourUTC) env).2.length := by
  have hcond : ¬ ((getMarketStatus dayOfWeek hourUTC).isOpen = false) := by simp [hopen]
  cases sessions with
  | nil =>
    refine ⟨?_, ?_, ?_, ?_⟩ <;> simp [handlerTick, hcond]
  | cons a tl =>
    refine ⟨?_, ?_, ?_, fun s _ => processTradinSession_logs_len s _ env⟩ <;>
      simp [handlerTick, hcond]

/-- Witness for C1: Monday 12:00 UTC, two sessions; session A's candle
fetch fails with an HTTP error while session B's pipeline runs, and the
tick still settles both and returns 200. -/
theorem C1_witness :
    (handlerTick 1 12 7 [sessA, sessB] envAB).statusCode = 200 ∧
    (handlerTick 1 12 7 [sessA, sessB] envAB).settled =
      [sessA, sessB].map
        (fun s => (processTradinSession s (getMarketStatus 1 12) envAB).1) ∧
    (handlerTick 1 12 7 [sessA, sessB] envAB).logs =
      ([sessA, sessB].map
        (fun s => (processTradinSession s (getMarketStatus 1 12) envAB).2)).flatten ∧
    ∀ s ∈ [sessA, sessB],
      1 ≤ (processTradinSession s (getMarketStatus 1 12) envAB).2.length :=
  C1_per_session_isolation 1 12 7 [sessA, sessB] envAB rfl

/-- Claim C3, counterexample: on a Saturday tick with an active session the
market is closed and the handler performs zero pipeline invocations, but it
emits zero audit records — not the one `SKIPPED_MARKET_CONDITIONS`-class
record the claim requires (the skip is only visible in the returned
response body). -/
theorem C3_counterexample :
    (getMarketStatus 6 3).isOpen = false ∧
    (handlerTick 6 3 0 [sessA] envAB).settled = [] ∧
    ¬ ((handlerTick 6 3 0 [sessA] envAB).logs.length = 1) :=
  ⟨rfl, rfl, by decide⟩

/-- Claim C3 (amended): at every tick at which the market is closed (in
particular any Saturday hour) the scheduler performs zero per-session
pipeline invocations and inserts zero audit records, returning a 200
response whose body message marks the skip; no
`SKIPPED_MARKET_CONDITIONS` audit record is written on this path. -/
theorem C3_closed_tick_no_work (dayOfWeek hourUTC now : Nat) (sessions : List Session)
    (env : TickEnv) (hclosed : (getMarketStatus dayOfWeek hourUTC).isOpen = false) :
    (handlerTick dayOfWeek hourUTC now sessions env).statusCode = 200 ∧
    (handlerTick dayOfWeek hourUTC now sessions env).settled = [] ∧
    (handlerTick dayOfWeek hourUTC now sessions env).logs = [] ∧
    (handlerTick dayOfWeek hourUTC now sessions env).updatedSessions = [] ∧
    (handlerTick dayOfWeek hourUTC now sessions env).message =
      "Markets closed - execution skipped" := by
  refine ⟨?_, ?_, ?_, ?_, ?_⟩ <;> simp [handlerTick, hclosed]

/-- Witness for the amended C3 theorem: Saturday 03:00 UTC with one active
session. -/
theorem C3_witness :
    (handlerTick 6 3 0 [sessA] envAB).statusCode = 200 ∧
    (handlerTick 6 3 0 [sessA] envAB).settled = [] ∧
    (handlerTick 6 3 0 [sessA] envAB).logs = [] ∧
    (handlerTick 6 3 0 [sessA] envAB).updatedSessions = [] ∧
    (handlerTick 6 3 0 [sessA] envAB).message = "Markets closed - execution skipped" :=
  C3_closed_tick_no_work 6 3 0 [sessA] envAB rfl

/-- Claim C7: every session row written back by a tick is one of the input
sessions with only its `last_execution` timestamp changed — the activity
flag, strategy code and every risk parameter are untouched, whatever the
session pipelines did; deactivation happens only through the explicit user
action `stopSession`. -/
theorem C7_engine_writes_timestamp_only (dayOfWeek hourUTC now : Nat)
    (sessions : List Session) (env : TickEnv) (u : Session)
    (hu : u ∈ (handlerTick dayOfWeek hourUTC now sessions env).updatedSessions) :
    ∃ s, s ∈ sessions ∧ u = { s with last_execution := now } ∧
      u.is_active = s.is_active ∧ u.strategy_code = s.strategy_code ∧
      u.risk_per_trade = s.risk_per_trade ∧ u.stop_loss = s.stop_loss ∧
      u.take_profit = s.take_profit ∧ u.max_position_size = s.max_position_size ∧
      u.reverse_signals = s.reverse_signals ∧ u.avoid_low_volume = s.avoid_low_volume ∧
      (stopSession s).is_active = false := by
  simp only [handlerTick] at hu
  by_cases hopen : (getMarketStatus dayOfWeek hourUTC).isOpen = false
  · rw [if_pos hopen] at hu
    simp at hu
  · rw [if_neg hopen] at hu
    by_cases hlen : sessions.length = 0
    · rw [if_pos hlen] at hu
      simp at hu
    · rw [if_neg hlen] at hu
      rcases List.mem_map.mp hu with ⟨s, hs, rfl⟩
      exact ⟨s, hs, rfl, rfl, rfl, rfl, rfl, rfl, rfl, rfl, rfl, rfl⟩

/-- Witness for C7: a concrete tick over one session — the written-back row
is the session with only the timestamp replaced. -/
theorem C7_witness :
    ∃ s, s ∈ [sessA] ∧
      ({ sessA with last_execution := 99 } : Session) = { s with last_execution := 99 } ∧
      ({ sessA with last_execution := 99 } : Session).is_active = s.is_active ∧
      ({ sessA with last_execution := 99 } : Session).strategy_code = s.strategy_code ∧
      ({ sessA with last_execution := 99 } : Session).risk_per_trade = s.risk_per_trade ∧
      ({ sessA with last_execution := 99 } : Session).stop_loss = s.stop_loss ∧
      ({ sessA with last_execution := 99 } : Session).take_profit = s.take_profit ∧
      ({ sessA with last_execution := 99 } : Session).max_position_size = s.max_position_size ∧
      ({ sessA with last_execution := 99 } : Session).reverse_signals = s.reverse_signals ∧
      ({ sessA with last_execution := 99 } : Session).avoid_low_volume = s.avoid_low_volume ∧
      (stopSession s).is_active = false :=
  C7_engine_writes_timestamp_only 1 12 99 [sessA] envAB
    { sessA with last_execution := 99 } (by decide)
